import Mathlib

/-!
Verification of the Workflow_App task-management repository.

Shallow embedding of the filtering, sorting, aggregation, report-option and
date-range-dialog logic of the repository.  Timestamps are modelled as integer
milliseconds since the Unix epoch in a fixed (UTC) timezone; JavaScript `Date`
values become `Int`, nullable/optional fields become `Option`, and numeric
prices become exact rationals.  JavaScript's stable `Array.prototype.sort`
with comparator `cmp` is modelled by `List.mergeSort` with the relation
`fun a b => cmp a b ≤ 0`.
-/

namespace Workflow

/-! ## Date model (date-fns semantics at a fixed UTC offset) -/

def msPerDay : Int := 86400000

/-- Calendar day index of a timestamp (floor division, so pre-1970 works). -/
def dayIndex (t : Int) : Int := t.fdiv msPerDay

/-- `startOfDay` from date-fns: midnight of the timestamp's day. -/
def startOfDay (t : Int) : Int := dayIndex t * msPerDay

/-- `endOfDay` from date-fns: 23:59:59.999 of the timestamp's day. -/
def endOfDay (t : Int) : Int := startOfDay t + (msPerDay - 1)

/-- `isAfter a b` from date-fns: `a` is strictly later than `b`. -/
def isAfter (a b : Int) : Bool := decide (b < a)

/-- Day of week, 0 = Sunday (date-fns default `weekStartsOn = 0`).
Day 0 of the epoch (1970-01-01) was a Thursday. -/
def dayOfWeek (t : Int) : Int := (dayIndex t + 4) % 7

/-- `startOfWeek` from date-fns (week starts on Sunday). -/
def startOfWeek (t : Int) : Int := (dayIndex t - dayOfWeek t) * msPerDay

/-- `endOfWeek` from date-fns: last millisecond of the Saturday. -/
def endOfWeek (t : Int) : Int := startOfWeek t + 7 * msPerDay - 1

/-- Civil-calendar day number of a (proleptic Gregorian) date, days since
1970-01-01 (Hinnant's `days_from_civil`, floor-division form). -/
def daysFromCivil (y m d : Int) : Int :=
  let yAdj := if m ≤ 2 then y - 1 else y
  let era := yAdj.fdiv 400
  let yoe := yAdj - era * 400
  let mp := if m > 2 then m - 3 else m + 9
  let doy := (153 * mp + 2).fdiv 5 + d - 1
  let doe := yoe * 365 + yoe.fdiv 4 - yoe.fdiv 100 + doy
  era * 146097 + doe - 719468

/-- Inverse of `daysFromCivil` (Hinnant's `civil_from_days`): year, month, day
of a day number. -/
def civilFromDays (z : Int) : Int × Int × Int :=
  let z' := z + 719468
  let era := z'.fdiv 146097
  let doe := z' - era * 146097
  let yoe := (doe - doe.fdiv 1460 + doe.fdiv 36524 - doe.fdiv 146096).fdiv 365
  let y := yoe + era * 400
  let doy := doe - (365 * yoe + yoe.fdiv 4 - yoe.fdiv 100)
  let mp := (5 * doy + 2).fdiv 153
  let d := doy - (153 * mp + 2).fdiv 5 + 1
  let m := if mp < 10 then mp + 3 else mp - 9
  (if m ≤ 2 then y + 1 else y, m, d)

/-- `startOfMonth` from date-fns. -/
def startOfMonth (t : Int) : Int :=
  let c := civilFromDays (dayIndex t)
  daysFromCivil c.1 c.2.1 1 * msPerDay

/-- `endOfMonth` from date-fns: last millisecond of the month. -/
def endOfMonth (t : Int) : Int :=
  let c := civilFromDays (dayIndex t)
  let next := if c.2.1 = 12 then (c.1 + 1, 1) else (c.1, c.2.1 + 1)
  daysFromCivil next.1 next.2 1 * msPerDay - 1

/-- `startOfQuarter` from date-fns. -/
def startOfQuarter (t : Int) : Int :=
  let c := civilFromDays (dayIndex t)
  let qm := 3 * ((c.2.1 - 1).fdiv 3) + 1
  daysFromCivil c.1 qm 1 * msPerDay

/-- `endOfQuarter` from date-fns: last millisecond of the quarter. -/
def endOfQuarter (t : Int) : Int :=
  let c := civilFromDays (dayIndex t)
  let qm := 3 * ((c.2.1 - 1).fdiv 3) + 1
  let next := if qm = 10 then (c.1 + 1, 1) else (c.1, qm + 3)
  daysFromCivil next.1 next.2 1 * msPerDay - 1

/-- `startOfYear` from date-fns. -/
def startOfYear (t : Int) : Int :=
  let c := civilFromDays (dayIndex t)
  daysFromCivil c.1 1 1 * msPerDay

/-- `endOfYear` from date-fns: last millisecond of December 31. -/
def endOfYear (t : Int) : Int :=
  let c := civilFromDays (dayIndex t)
  daysFromCivil (c.1 + 1) 1 1 * msPerDay - 1

/-! ## Entity model (`src/types/task.ts`) -/

inductive TaskStatus where
  | notInitiated
  | inProgress
  | completed
deriving DecidableEq, Repr

inductive WorkItemType where
  | project
  | job
deriving DecidableEq, Repr

inductive MaterialStatusKind where
  | ordered
  | yetToBeShipped
  | inTransit
  | received
deriving DecidableEq, Repr

inductive PriorityType where
  | low
  | medium
  | high
  | urgent
deriving DecidableEq, Repr

inductive WorkConfirmationStatus where
  | awaiting
  | confirmed
deriving DecidableEq, Repr

/-- The `Task` record of `src/types/task.ts`; JavaScript `Date`s are integer
millisecond timestamps, nullable/optional fields are `Option`s, prices are
exact rationals. -/
structure Task where
  id : String
  title : String
  site : String
  description : String
  notes : Option String
  status : TaskStatus
  images : List String
  userId : String
  createdAt : Int
  updatedAt : Int
  dateInitiated : Option Int
  dateCompleted : Option Int
  uploaderEmail : Option String
  type : WorkItemType
  priority : PriorityType
  requiresMaterial : Bool
  materialStatus : Option MaterialStatusKind
  materialDescription : String
  quotedPrice : Option Rat
  confirmedPrice : Option Rat
  workConfirmationStatus : WorkConfirmationStatus
  poNumber : Option String
deriving DecidableEq, Repr

/-! ## Filter evaluator (`TaskGrid`, `src/unnamed/part_004`) -/

/-- The `Filters` state of `TaskGrid`. -/
structure Filters where
  status : List TaskStatus
  types : List WorkItemType
  users : List String
  materialStatus : List MaterialStatusKind
  priorities : List PriorityType
  requiresMaterial : Option Bool
  hasDocuments : Option Bool
  hasPrice : Option Bool
deriving DecidableEq, Repr

/-- `initialFilters` of `TaskGrid`: nothing configured. -/
def initialFilters : Filters :=
  { status := [], types := [], users := [], materialStatus := [],
    priorities := [], requiresMaterial := none, hasDocuments := none,
    hasPrice := none }

/-- The `UserInfo` record of `TaskGrid`. -/
structure UserInfo where
  id : String
  name : String
  email : String
deriving DecidableEq, Repr

/-- JavaScript `String.prototype.toLowerCase` (ASCII-faithful model):
lower-case every character. -/
def jsToLower (s : String) : String := ⟨s.data.map Char.toLower⟩

/-- JavaScript `String.prototype.includes`: `q` is a contiguous substring. -/
def jsIncludes (s q : String) : Bool := decide (List.IsInfix q.data s.data)

/-- The free-text search predicate of `filteredAndSortedTasks` (the body of
the `result.filter` under `if (searchQuery)`), for a given lower-cased query
pipeline: fields are lower-cased and tested with `includes`. -/
def matchesSearch (searchQuery : String) (userList : List UserInfo)
    (role : String) (task : Task) : Bool :=
  let query := jsToLower searchQuery
  let user := userList.find? fun u => u.id == task.userId
  jsIncludes (jsToLower task.title) query ||
  jsIncludes (jsToLower task.description) query ||
  jsIncludes (jsToLower task.site) query ||
  (match task.notes with
   | some n => jsIncludes (jsToLower n) query
   | none => false) ||
  (task.materialDescription ≠ "" &&
    jsIncludes (jsToLower task.materialDescription) query) ||
  (role == "admin" &&
    ((match task.uploaderEmail with
      | some e => jsIncludes (jsToLower e) query
      | none => false) ||
     (match user with
      | some u => jsIncludes (jsToLower u.name) query ||
                  jsIncludes (jsToLower u.email) query
      | none => false)))

/-- The filter stage of `filteredAndSortedTasks` in `TaskGrid`: the search
filter followed by the eight configured-dimension filters, each applied only
when its dimension is configured. -/
def applyFilters (searchQuery : String) (userList : List UserInfo)
    (role : String) (filters : Filters) (tasks : List Task) : List Task :=
  let r0 := tasks
  let r1 := if searchQuery ≠ "" then
      r0.filter (matchesSearch searchQuery userList role) else r0
  let r2 := if filters.status ≠ [] then
      r1.filter (fun t => filters.status.contains t.status) else r1
  let r3 := if filters.types ≠ [] then
      r2.filter (fun t => filters.types.contains t.type) else r2
  let r4 := if filters.priorities ≠ [] then
      r3.filter (fun t => filters.priorities.contains t.priority) else r3
  let r5 := if filters.users ≠ [] then
      r4.filter (fun t => filters.users.contains t.userId) else r4
  let r6 := if filters.materialStatus ≠ [] then
      r5.filter (fun t =>
        match t.materialStatus with
        | some ms => filters.materialStatus.contains ms
        | none => false) else r5
  let r7 := if filters.requiresMaterial.isSome then
      r6.filter (fun t => some t.requiresMaterial == filters.requiresMaterial) else r6
  let r8 := if filters.hasDocuments.isSome then
      r7.filter (fun t =>
        if filters.hasDocuments == some true then decide (t.images.length > 0)
        else decide (t.images.length = 0)) else r7
  let r9 := if filters.hasPrice.isSome then
      r8.filter (fun t =>
        if filters.hasPrice == some true then
          t.quotedPrice.isSome || t.confirmedPrice.isSome
        else t.quotedPrice.isNone && t.confirmedPrice.isNone) else r8
  r9

/-! ## Sort comparator selector (`TaskGrid`, `src/unnamed/part_004`) -/

/-- `PRIORITY_ORDER` of `TaskGrid`. -/
def PRIORITY_ORDER : PriorityType → Int
  | .urgent => 4
  | .high => 3
  | .medium => 2
  | .low => 1

/-- The `SortOption` union type of `TaskGrid`. -/
inductive SortOption where
  | newest
  | oldest
  | titleAsc
  | titleDesc
  | priorityHigh
  | priorityLow
  | priceHigh
  | priceLow
deriving DecidableEq, Repr

/-- JavaScript truthy-or on a nullable number: `x || y` falls through to `y`
when `x` is `null`/`undefined` or `0`. -/
def orElseNum (x : Option Rat) (y : Rat) : Rat :=
  match x with
  | some v => if v = 0 then y else v
  | none => y

/-- The effective price used by the `price-high`/`price-low` comparator:
`task.confirmedPrice || task.quotedPrice || 0` (JavaScript truthiness). -/
def effPrice (t : Task) : Rat := orElseNum t.confirmedPrice (orElseNum t.quotedPrice 0)

/-- `taskLe s a b` holds iff the `TaskGrid` sort comparator for mode `s`
returns a value `≤ 0` on `(a, b)`, i.e. iff the stable sort may keep `a`
no later than `b`.  `localeCompare` is modelled by the lexicographic string
order. -/
def taskLe : SortOption → Task → Task → Bool
  | .newest, a, b => decide (b.createdAt ≤ a.createdAt)
  | .oldest, a, b => decide (a.createdAt ≤ b.createdAt)
  | .titleAsc, a, b => decide (a.title ≤ b.title)
  | .titleDesc, a, b => decide (b.title ≤ a.title)
  | .priorityHigh, a, b =>
    if PRIORITY_ORDER a.priority = PRIORITY_ORDER b.priority then
      decide (b.createdAt ≤ a.createdAt)
    else decide (PRIORITY_ORDER b.priority ≤ PRIORITY_ORDER a.priority)
  | .priorityLow, a, b =>
    if PRIORITY_ORDER a.priority = PRIORITY_ORDER b.priority then
      decide (b.createdAt ≤ a.createdAt)
    else decide (PRIORITY_ORDER a.priority ≤ PRIORITY_ORDER b.priority)
  | .priceHigh, a, b => decide (effPrice b ≤ effPrice a)
  | .priceLow, a, b => decide (effPrice a ≤ effPrice b)

/-- The sort stage of `filteredAndSortedTasks`: JavaScript's stable
`Array.prototype.sort` with the mode's comparator. -/
def sortTasks (s : SortOption) (l : List Task) : List Task := l.mergeSort (taskLe s)

/-- `filteredAndSortedTasks` of `TaskGrid`: filter stage then sort stage. -/
def filteredAndSortedTasks (searchQuery : String) (userList : List UserInfo)
    (role : String) (filters : Filters) (sortBy : SortOption)
    (tasks : List Task) : List Task :=
  sortTasks sortBy (applyFilters searchQuery userList role filters tasks)

/-! ## Report renderers (`src/lib/email.ts`) -/

/-- `ReportPeriod` of `src/lib/email.ts`. -/
inductive ReportPeriod where
  | daily
  | weekly
  | monthly
  | quarterly
  | yearly
deriving DecidableEq, Repr

/-- `ReportOptions` of `src/lib/email.ts`: all fields but `period` are
optional. -/
structure ReportOptions where
  period : ReportPeriod
  startDate : Option Int
  endDate : Option Int
  includeCompleted : Option Bool
  includeInProgress : Option Bool
  includeNotStarted : Option Bool
  includeProjects : Option Bool
  includeJobs : Option Bool
  includePriceDetails : Option Bool
  selectedTasks : Option (List String)
deriving DecidableEq, Repr

/-- `getDefaultDateRange` of `src/lib/email.ts`. -/
def getDefaultDateRange (period : ReportPeriod) (date : Int) : Int × Int :=
  match period with
  | .daily => (startOfDay date, endOfDay date)
  | .weekly => (startOfWeek date, endOfWeek date)
  | .monthly => (startOfMonth date, endOfMonth date)
  | .quarterly => (startOfQuarter date, endOfQuarter date)
  | .yearly => (startOfYear date, endOfYear date)

/-- The `dateRange` computed at the top of both `generatePDFReport` and
`generateExcelReport`: explicit bounds (widened to whole days) when both are
supplied, else the current day for a daily report, else none.  `now` is the
generation instant (`new Date()`). -/
def reportDateRange (now : Int) (options : ReportOptions) : Option (Int × Int) :=
  match options.startDate, options.endDate with
  | some s, some e => some (startOfDay s, endOfDay e)
  | _, _ => if options.period = .daily then some (getDefaultDateRange .daily now) else none

/-- The `statusFilters` lookup of the report generators
(each flag defaults to `true` via `??`). -/
def statusIncluded (options : ReportOptions) : TaskStatus → Bool
  | .completed => options.includeCompleted.getD true
  | .inProgress => options.includeInProgress.getD true
  | .notInitiated => options.includeNotStarted.getD true

/-- The `typeFilters` lookup of the report generators. -/
def typeIncluded (options : ReportOptions) : WorkItemType → Bool
  | .project => options.includeProjects.getD true
  | .job => options.includeJobs.getD true

/-- The `filteredTasks` computation shared verbatim by `generatePDFReport`
and `generateExcelReport`: a supplied selection list short-circuits the date
and status/type filters. -/
def reportFilteredTasks (now : Int) (tasks : List Task)
    (options : ReportOptions) : List Task :=
  match options.selectedTasks with
  | some sel => tasks.filter fun t => sel.contains t.id
  | none =>
    let afterDate :=
      match reportDateRange now options with
      | some r => tasks.filter fun t : Task => decide (r.1 ≤ t.createdAt ∧ t.createdAt ≤ r.2)
      | none => tasks
    afterDate.filter fun t => statusIncluded options t.status && typeIncluded options t.type

/-- The `filteredTasks.sort((a, b) => b.createdAt - a.createdAt)` step shared
by both report generators. -/
def reportSortedTasks (now : Int) (tasks : List Task)
    (options : ReportOptions) : List Task :=
  sortTasks .newest (reportFilteredTasks now tasks options)

/-- The capitalised period name used in the PDF title
(`period.charAt(0).toUpperCase() + period.slice(1)`). -/
def periodTitle : ReportPeriod → String
  | .daily => "Daily"
  | .weekly => "Weekly"
  | .monthly => "Monthly"
  | .quarterly => "Quarterly"
  | .yearly => "Yearly"

/-- The `title` string of `generatePDFReport`. -/
def pdfTitle (options : ReportOptions) : String :=
  match options.selectedTasks with
  | some _ => "Custom Data Report"
  | none => "Work Tasks Report - " ++ periodTitle options.period

/-- Whether `generatePDFReport` prints its `Period: ... to ...` line
(guard `if (dateRange && !options.selectedTasks)`). -/
def pdfShowsPeriodLine (now : Int) (options : ReportOptions) : Bool :=
  (reportDateRange now options).isSome && options.selectedTasks.isNone

/-- The date range shown in the `Period` row of the Excel summary sheet
(`dateRange ? "start to end" : "All Time"`); `none` renders as `"All Time"`. -/
def excelPeriodCell (now : Int) (options : ReportOptions) : Option (Int × Int) :=
  reportDateRange now options

/-! ## Report dialog date handling (`ReportDialog`, `src/unnamed/part_007`) -/

/-- The period union of `ReportDialog`: the five report periods plus
`custom` and `selection`. -/
inductive DialogPeriod where
  | daily
  | weekly
  | monthly
  | quarterly
  | yearly
  | custom
  | selection
deriving DecidableEq, Repr

/-- The date-related state of `ReportDialog`. -/
structure DialogState where
  selectedDate : Option Int
  startDate : Option Int
  endDate : Option Int
deriving DecidableEq, Repr

/-- `handleDateSelect` of `ReportDialog`.  `today = endOfDay now` is computed
at render time.  Returns the new state and whether the destructive
"Invalid Date" toast was shown.  A named-period end later than `today` is
clamped to `today`. -/
def handleDateSelect (period : DialogPeriod) (today : Int) (date : Option Int)
    (s : DialogState) : DialogState × Bool :=
  match date with
  | some d =>
    if isAfter d today then (s, true)
    else
      let s1 := { s with selectedDate := some d }
      let range : Option (Int × Int) :=
        match period with
        | .weekly => some (startOfWeek d, endOfWeek d)
        | .monthly => some (startOfMonth d, endOfMonth d)
        | .quarterly => some (startOfQuarter d, endOfQuarter d)
        | .yearly => some (startOfYear d, endOfYear d)
        | _ => none
      match range with
      | some r =>
        let clamped := if isAfter r.2 today then today else r.2
        ({ s1 with startDate := some r.1, endDate := some clamped }, false)
      | none => (s1, false)
  | none => ({ s with selectedDate := none }, false)

/-- `handleStartDateSelect` of `ReportDialog`: rejects a start after `today`
with a toast; otherwise stores the start and clears the end when the new
start is after the stored end. -/
def handleStartDateSelect (today : Int) (date : Option Int)
    (s : DialogState) : DialogState × Bool :=
  match date with
  | some d =>
    if isAfter d today then (s, true)
    else
      let s1 := { s with startDate := some d }
      match s.endDate with
      | some e => if isAfter d e then ({ s1 with endDate := none }, false) else (s1, false)
      | none => (s1, false)
  | none => ({ s with startDate := none }, false)

/-- `handleEndDateSelect` of `ReportDialog`: rejects an end after `today`
with a toast; otherwise stores the end unconditionally. -/
def handleEndDateSelect (today : Int) (date : Option Int)
    (s : DialogState) : DialogState × Bool :=
  match date with
  | some d => if isAfter d today then (s, true) else ({ s with endDate := some d }, false)
  | none => ({ s with endDate := none }, false)

/-- The calendar end of the named-period range computed by
`handleDateSelect` before clamping (`none` for the periods that take the
`default:` branch). -/
def namedPeriodEnd (period : DialogPeriod) (d : Int) : Option Int :=
  match period with
  | .weekly => some (endOfWeek d)
  | .monthly => some (endOfMonth d)
  | .quarterly => some (endOfQuarter d)
  | .yearly => some (endOfYear d)
  | _ => none

/-! ## Dashboard metrics (`src/app/page.tsx`) -/

/-- The `metrics` record computed by the dashboard's effect in `Home`. -/
structure Metrics where
  total : Nat
  completed : Nat
  inProgress : Nat
  notStarted : Nat
  projects : Nat
  jobs : Nat
deriving DecidableEq, Repr

/-- The `newMetrics` computation of `Home` (`src/app/page.tsx`). -/
def computeMetrics (tasks : List Task) : Metrics :=
  { total := tasks.length
    completed := (tasks.filter fun t => t.status == .completed).length
    inProgress := (tasks.filter fun t => t.status == .inProgress).length
    notStarted := (tasks.filter fun t => t.status == .notInitiated).length
    projects := (tasks.filter fun t => t.type == .project).length
    jobs := (tasks.filter fun t => t.type == .job).length }

/-- The per-status counts of the report summary blocks in
`generatePDFReport` / `generateExcelReport` (`completed`, `inProgress`,
`notStarted` over `filteredTasks`), as a triple. -/
def summaryStatusCounts (filteredTasks : List Task) : Nat × Nat × Nat :=
  ((filteredTasks.filter fun t => t.status == .completed).length,
   (filteredTasks.filter fun t => t.status == .inProgress).length,
   (filteredTasks.filter fun t => t.status == .notInitiated).length)

/-- `calculateAverageCompletionTime` of `Home` (`src/app/page.tsx`):
mean of `(dateCompleted - dateInitiated) / 86 400 000` over the tasks having
both timestamps, rounded with `Math.round` (half up); 0 when none qualify. -/
def calculateAverageCompletionTime (tasks : List Task) : Int :=
  let completedTasks := tasks.filter fun t =>
    t.dateCompleted.isSome && t.dateInitiated.isSome
  if completedTasks.length = 0 then 0
  else
    let totalDays : Rat := completedTasks.foldl
      (fun sum t =>
        sum + ((t.dateCompleted.getD 0 - t.dateInitiated.getD 0 : Int) : Rat) / 86400000)
      0
    round (totalDays / (completedTasks.length : Rat))

/-! ## Task editor attachment cap (`TaskDialog`, `src/unnamed/part_005`) -/

/-- The outcome of `handleFileChange` in `TaskDialog`. -/
inductive FileChangeResult where
  | noop
  | rejected (remainingSlots : Int)
  | updated (newTaskImages : List String)
deriving DecidableEq, Repr

/-- `handleFileChange` of `TaskDialog`: files are identified by name; a
selection whose size exceeds the remaining slots below the 50-attachment cap
is rejected with a toast, otherwise every selected file is appended to the
pending images. -/
def handleFileChange (files taskImages existingImages : List String) :
    FileChangeResult :=
  match files with
  | [] => .noop
  | _ :: _ =>
    let totalFiles : Int := taskImages.length + existingImages.length
    let remainingSlots := 50 - totalFiles
    if (files.length : Int) > remainingSlots then .rejected remainingSlots
    else .updated (taskImages ++ files)

/-! ## Auxiliary definitions for statements and witnesses -/

/-- A task with neutral field values, used to build concrete test tasks. -/
def mkTask (id : String) : Task :=
  { id := id, title := "", site := "", description := "", notes := none,
    status := .notInitiated, images := [], userId := "", createdAt := 0,
    updatedAt := 0, dateInitiated := none, dateCompleted := none,
    uploaderEmail := none, type := .project, priority := .medium,
    requiresMaterial := false, materialStatus := none,
    materialDescription := "", quotedPrice := none, confirmedPrice := none,
    workConfirmationStatus := .awaiting, poNumber := none }

/-- The effective price as the specification words it: confirmed price if
present, else quoted price if present, else zero.  Stated from the spec for
comparison with the code's `effPrice`. -/
def specEffectivePrice (t : Task) : Rat :=
  match t.confirmedPrice with
  | some c => c
  | none =>
    match t.quotedPrice with
    | some q => q
    | none => 0

/-- The average completion duration as the specification words it: the mean
of the per-item day-durations over exactly the items carrying both
timestamps, rounded to the nearest integer day, and `0` when no item
qualifies.  Stated from the spec for comparison with
`calculateAverageCompletionTime`. -/
def specAverageCompletionDays (tasks : List Task) : Int :=
  let durations := tasks.filterMap fun t =>
    match t.dateInitiated, t.dateCompleted with
    | some i, some c => some (((c - i : Int) : Rat) / 86400000)
    | _, _ => none
  if durations.length = 0 then 0
  else round (durations.sum / (durations.length : Rat))

/-! ## Helper lemmas -/

/-- Membership in one conditional filter stage yields membership in the
previous stage plus the stage's predicate whenever the stage is enabled. -/
theorem mem_stage {c : Prop} [Decidable c] {p : Task → Bool} {l : List Task}
    {t : Task} (h : t ∈ if c then l.filter p else l) :
    t ∈ l ∧ (c → p t = true) := by
  split at h
  · exact ⟨(List.mem_filter.mp h).1, fun _ => (List.mem_filter.mp h).2⟩
  · next hc => exact ⟨h, fun hcc => absurd hcc hc⟩

/-- Each sort mode's comparator relation is total. -/
theorem taskLe_total (s : SortOption) (a b : Task) :
    (taskLe s a b || taskLe s b a) = true := by
  cases s with
  | newest => simp [taskLe]; omega
  | oldest => simp [taskLe]; omega
  | titleAsc => simp [taskLe]; exact le_total a.title.data b.title.data
  | titleDesc => simp [taskLe]; exact le_total b.title.data a.title.data
  | priorityHigh =>
    simp only [taskLe, Bool.or_eq_true, decide_eq_true_eq]
    split_ifs with h1 h2 h2 <;> simp only [decide_eq_true_eq] <;> omega
  | priorityLow =>
    simp only [taskLe, Bool.or_eq_true, decide_eq_true_eq]
    split_ifs with h1 h2 h2 <;> simp only [decide_eq_true_eq] <;> omega
  | priceHigh => simp [taskLe]; exact le_total (effPrice b) (effPrice a)
  | priceLow => simp [taskLe]; exact le_total (effPrice a) (effPrice b)

/-- Each sort mode's comparator relation is transitive. -/
theorem taskLe_trans (s : SortOption) (a b c : Task) :
    taskLe s a b = true → taskLe s b c = true → taskLe s a c = true := by
  cases s with
  | newest => simp [taskLe]; omega
  | oldest => simp [taskLe]; omega
  | titleAsc => simp [taskLe]; exact fun h1 h2 => le_trans h1 h2
  | titleDesc => simp [taskLe]; exact fun h1 h2 => le_trans h2 h1
  | priorityHigh =>
    simp only [taskLe]
    split_ifs with h1 h2 h3 h2 h3 h3 h3 <;>
      simp only [decide_eq_true_eq] <;> omega
  | priorityLow =>
    simp only [taskLe]
    split_ifs with h1 h2 h3 h2 h3 h3 h3 <;>
      simp only [decide_eq_true_eq] <;> omega
  | priceHigh => simp [taskLe]; exact fun h1 h2 => le_trans h2 h1
  | priceLow => simp [taskLe]; exact fun h1 h2 => le_trans h1 h2

/-- The output of every sort mode is pairwise ordered by its comparator
relation. -/
theorem sortTasks_pairwise (s : SortOption) (l : List Task) :
    List.Pairwise (fun a b => taskLe s a b = true) (sortTasks s l) :=
  List.sorted_mergeSort (taskLe_trans s) (taskLe_total s) l

/-- Any earlier element of a sort output is related to any later element by
the mode's comparator relation (stated with `getD` and a dummy task). -/
theorem sortTasks_getD_rel (s : SortOption) (l : List Task) (i j : Nat)
    (hij : i < j) (hj : j < (sortTasks s l).length) :
    taskLe s ((sortTasks s l).getD i (mkTask ""))
      ((sortTasks s l).getD j (mkTask "")) = true := by
  have hi : i < (sortTasks s l).length := lt_trans hij hj
  rw [List.getD_eq_getElem _ _ hi, List.getD_eq_getElem _ _ hj]
  exact (List.pairwise_iff_getElem.mp (sortTasks_pairwise s l)) i j hi hj hij

/-! ## Claim theorems -/

/-- C7: for every sort mode and input collection, the sort output is a
permutation of the input of the same length, and sorting an already-sorted
collection again yields the identical order (idempotence). -/
theorem sort_perm_and_idempotent (s : SortOption) (l : List Task) :
    (sortTasks s l).Perm l ∧ (sortTasks s l).length = l.length ∧
    sortTasks s (sortTasks s l) = sortTasks s l :=
  ⟨List.mergeSort_perm l (taskLe s),
   (List.mergeSort_perm l (taskLe s)).length_eq,
   List.mergeSort_of_sorted (sortTasks_pairwise s l)⟩

/-- C4: priorities map to ranks urgent 4, high 3, medium 2, low 1; in
`priority-high` mode ranks are non-increasing along the output (a strictly
higher rank always precedes a lower one, regardless of creation time), in
`priority-low` mode ranks are non-decreasing, and in both modes equal-rank
items appear newest first. -/
theorem priority_sort_rank_and_tiebreak :
    (PRIORITY_ORDER .urgent = 4 ∧ PRIORITY_ORDER .high = 3 ∧
     PRIORITY_ORDER .medium = 2 ∧ PRIORITY_ORDER .low = 1) ∧
    (∀ (l : List Task) (i j : Nat), i < j →
      ∀ _hj : j < (sortTasks .priorityHigh l).length,
      PRIORITY_ORDER (((sortTasks .priorityHigh l).getD j (mkTask "")).priority) ≤
        PRIORITY_ORDER (((sortTasks .priorityHigh l).getD i (mkTask "")).priority) ∧
      (PRIORITY_ORDER (((sortTasks .priorityHigh l).getD i (mkTask "")).priority) =
          PRIORITY_ORDER (((sortTasks .priorityHigh l).getD j (mkTask "")).priority) →
        ((sortTasks .priorityHigh l).getD j (mkTask "")).createdAt ≤
          ((sortTasks .priorityHigh l).getD i (mkTask "")).createdAt)) ∧
    (∀ (l : List Task) (i j : Nat), i < j →
      ∀ _hj : j < (sortTasks .priorityLow l).length,
      PRIORITY_ORDER (((sortTasks .priorityLow l).getD i (mkTask "")).priority) ≤
        PRIORITY_ORDER (((sortTasks .priorityLow l).getD j (mkTask "")).priority) ∧
      (PRIORITY_ORDER (((sortTasks .priorityLow l).getD i (mkTask "")).priority) =
          PRIORITY_ORDER (((sortTasks .priorityLow l).getD j (mkTask "")).priority) →
        ((sortTasks .priorityLow l).getD j (mkTask "")).createdAt ≤
          ((sortTasks .priorityLow l).getD i (mkTask "")).createdAt)) := by
  refine ⟨⟨rfl, rfl, rfl, rfl⟩, ?_, ?_⟩
  · intro l i j hij hj
    have h := sortTasks_getD_rel .priorityHigh l i j hij hj
    simp only [taskLe] at h
    split at h <;> simp only [decide_eq_true_eq] at h
    · next hc => exact ⟨le_of_eq hc.symm, fun _ => h⟩
    · next hc => exact ⟨h, fun he => absurd he hc⟩
  · intro l i j hij hj
    have h := sortTasks_getD_rel .priorityLow l i j hij hj
    simp only [taskLe] at h
    split at h <;> simp only [decide_eq_true_eq] at h
    · next hc => exact ⟨le_of_eq hc, fun _ => h⟩
    · next hc => exact ⟨h, fun he => absurd he hc⟩

/-- An urgent task created early, for the priority-sort witness. -/
def cTaskUrgent : Task := { mkTask "u" with priority := .urgent, createdAt := 10 }

/-- A low-priority task created late, for the priority-sort witness. -/
def cTaskLow : Task := { mkTask "l" with priority := .low, createdAt := 999 }

/-- Witness for C4 at a concrete two-task list. -/
theorem priority_sort_rank_and_tiebreak_witness :
    PRIORITY_ORDER (((sortTasks .priorityHigh [cTaskLow, cTaskUrgent]).getD 1 (mkTask "")).priority) ≤
      PRIORITY_ORDER (((sortTasks .priorityHigh [cTaskLow, cTaskUrgent]).getD 0 (mkTask "")).priority) ∧
    (PRIORITY_ORDER (((sortTasks .priorityHigh [cTaskLow, cTaskUrgent]).getD 0 (mkTask "")).priority) =
        PRIORITY_ORDER (((sortTasks .priorityHigh [cTaskLow, cTaskUrgent]).getD 1 (mkTask "")).priority) →
      ((sortTasks .priorityHigh [cTaskLow, cTaskUrgent]).getD 1 (mkTask "")).createdAt ≤
        ((sortTasks .priorityHigh [cTaskLow, cTaskUrgent]).getD 0 (mkTask "")).createdAt) :=
  priority_sort_rank_and_tiebreak.2.1 [cTaskLow, cTaskUrgent] 0 1 (by decide)
    (by simp [sortTasks])

/-- A task whose confirmed price is present with value 0 and whose quoted
price is 100. -/
def cPriceA : Task := { mkTask "a" with confirmedPrice := some 0, quotedPrice := some 100 }

/-- A task with no confirmed price and quoted price 50. -/
def cPriceB : Task := { mkTask "b" with quotedPrice := some 50 }

/-- C3 counterexample: in `price-high` mode, `cPriceA` (confirmed price
present with value 0, quoted 100) is placed before `cPriceB` (effective
price 50 under any reading), although its spec-defined effective price
(confirmed if present, else quoted, else 0) is 0 < 50: the comparator's
JavaScript `||` skips a present confirmed price of 0, so the claim's
"including a present value of 0" fails on the code. -/
theorem price_sort_zero_confirmed_counterexample :
    sortTasks .priceHigh [cPriceA, cPriceB] = [cPriceA, cPriceB] ∧
    specEffectivePrice cPriceA < specEffectivePrice cPriceB := by
  constructor
  · simp [sortTasks, List.mergeSort, List.merge, taskLe, effPrice, orElseNum,
      cPriceA, cPriceB, mkTask]
    norm_num
  · simp [specEffectivePrice, cPriceA, cPriceB, mkTask]

/-- C3 (amended): in `price-high` (resp. `price-low`) mode the output is
non-increasing (resp. non-decreasing) in the code's effective price, where
the effective price is the confirmed price if present and nonzero, else the
quoted price if present and nonzero, else 0; a present confirmed price of 0
is skipped in favour of the quoted price rather than used. -/
theorem price_sort_effective_price :
    (∀ (l : List Task) (i j : Nat), i < j →
      ∀ _hj : j < (sortTasks .priceHigh l).length,
      effPrice ((sortTasks .priceHigh l).getD j (mkTask "")) ≤
        effPrice ((sortTasks .priceHigh l).getD i (mkTask ""))) ∧
    (∀ (l : List Task) (i j : Nat), i < j →
      ∀ _hj : j < (sortTasks .priceLow l).length,
      effPrice ((sortTasks .priceLow l).getD i (mkTask "")) ≤
        effPrice ((sortTasks .priceLow l).getD j (mkTask ""))) ∧
    (∀ (t : Task) (c : Rat), t.confirmedPrice = some c → c ≠ 0 → effPrice t = c) ∧
    (∀ t : Task, t.confirmedPrice = some 0 → effPrice t = orElseNum t.quotedPrice 0) := by
  refine ⟨?_, ?_, ?_, ?_⟩
  · intro l i j hij hj
    have h := sortTasks_getD_rel .priceHigh l i j hij hj
    simpa [taskLe] using h
  · intro l i j hij hj
    have h := sortTasks_getD_rel .priceLow l i j hij hj
    simpa [taskLe] using h
  · intro t c hc hne
    simp [effPrice, orElseNum, hc, hne]
  · intro t hc
    simp [effPrice, orElseNum, hc]

/-- C1: every item output by the filter stage of `filteredAndSortedTasks`
satisfies every configured predicate (status, type, priority, user, material
status, requires-material, has-documents, has-price, free text), and when no
dimension is configured (all sets empty, all tri-states null, empty query)
the filter stage returns the input unchanged — in particular an empty
multi-select set imposes no constraint. -/
theorem filter_sound_and_identity (searchQuery : String)
    (userList : List UserInfo) (role : String) (filters : Filters)
    (tasks : List Task) :
    (∀ t ∈ applyFilters searchQuery userList role filters tasks,
      (searchQuery ≠ "" → matchesSearch searchQuery userList role t = true) ∧
      (filters.status ≠ [] → t.status ∈ filters.status) ∧
      (filters.types ≠ [] → t.type ∈ filters.types) ∧
      (filters.priorities ≠ [] → t.priority ∈ filters.priorities) ∧
      (filters.users ≠ [] → t.userId ∈ filters.users) ∧
      (filters.materialStatus ≠ [] →
        ∃ ms, t.materialStatus = some ms ∧ ms ∈ filters.materialStatus) ∧
      (∀ b, filters.requiresMaterial = some b → t.requiresMaterial = b) ∧
      (∀ b, filters.hasDocuments = some b → (0 < t.images.length ↔ b = true)) ∧
      (∀ b, filters.hasPrice = some b →
        ((t.quotedPrice.isSome = true ∨ t.confirmedPrice.isSome = true) ↔ b = true))) ∧
    (searchQuery = "" → filters = initialFilters →
      applyFilters searchQuery userList role filters tasks = tasks) := by
  constructor
  · intro t ht
    simp only [applyFilters] at ht
    obtain ⟨ht, h9⟩ := mem_stage ht
    obtain ⟨ht, h8⟩ := mem_stage ht
    obtain ⟨ht, h7⟩ := mem_stage ht
    obtain ⟨ht, h6⟩ := mem_stage ht
    obtain ⟨ht, h5⟩ := mem_stage ht
    obtain ⟨ht, h4⟩ := mem_stage ht
    obtain ⟨ht, h3⟩ := mem_stage ht
    obtain ⟨ht, h2⟩ := mem_stage ht
    obtain ⟨ht, h1⟩ := mem_stage ht
    refine ⟨h1, fun hs => by simpa using h2 hs, fun hty => by simpa using h3 hty,
      fun hp => by simpa using h4 hp, fun hu => by simpa using h5 hu,
      ?_, ?_, ?_, ?_⟩
    · intro hm
      have hmm := h6 hm
      rcases hms : t.materialStatus with _ | ms
      · rw [hms] at hmm; simp at hmm
      · rw [hms] at hmm; exact ⟨ms, rfl, by simpa using hmm⟩
    · intro b hb
      have hr := h7 (by rw [hb]; rfl)
      rw [hb] at hr
      simpa using hr
    · intro b hb
      have hd := h8 (by rw [hb]; rfl)
      rw [hb] at hd
      cases b
      · simp at hd; simp [hd]
      · simp at hd; simp [hd]
    · intro b hb
      have hp := h9 (by rw [hb]; rfl)
      rw [hb] at hp
      cases b
      · simp at hp; simp [hp.1, hp.2]
      · simp at hp
        rcases hp with hq | hc
        · simp [hq]
        · simp [hc]
  · intro hq hf
    subst hq; subst hf
    simp [applyFilters, initialFilters]

/-- A concrete filter configuration with only the status dimension set. -/
def cFilters : Filters := { initialFilters with status := [TaskStatus.completed] }

/-- A concrete completed task titled "Alpha". -/
def cSearchTask : Task :=
  { mkTask "t1" with title := "Alpha", status := .completed, quotedPrice := some 5 }

/-- Witness for C1 at a concrete query, filter configuration and task. -/
theorem filter_sound_and_identity_witness :
    matchesSearch "alp" [] "user" cSearchTask = true ∧
    cSearchTask.status ∈ [TaskStatus.completed] ∧
    applyFilters "" [] "user" initialFilters [cSearchTask] = [cSearchTask] := by
  have h1 := (filter_sound_and_identity "alp" [] "user" cFilters [cSearchTask]).1
    cSearchTask (by decide)
  have h2 := (filter_sound_and_identity "" [] "user" initialFilters [cSearchTask]).2
    rfl rfl
  exact ⟨h1.1 (by decide), by simpa [cFilters] using h1.2.1 (by decide), h2⟩

/-- C2 (amended): for both report generators, a supplied selection list
makes the rendered item set exactly the input items whose id is in the list
— the date range and the status/type inclusion flags are ignored — and the
PDF is titled "Custom Data Report" and omits its period line.  (The Excel
summary's Period row is not suppressed in selection mode; see the
counterexample.) -/
theorem selection_mode_rendering (now : Int) (tasks : List Task)
    (options : ReportOptions) (sel : List String)
    (hsel : options.selectedTasks = some sel) :
    reportFilteredTasks now tasks options =
      (tasks.filter fun t => sel.contains t.id) ∧
    (∀ t : Task, t ∈ reportFilteredTasks now tasks options ↔
      t ∈ tasks ∧ t.id ∈ sel) ∧
    reportSortedTasks now tasks options =
      sortTasks .newest (tasks.filter fun t => sel.contains t.id) ∧
    pdfTitle options = "Custom Data Report" ∧
    pdfShowsPeriodLine now options = false := by
  have hfil : reportFilteredTasks now tasks options =
      (tasks.filter fun t => sel.contains t.id) := by
    simp [reportFilteredTasks, hsel]
  refine ⟨hfil, ?_, ?_, ?_, ?_⟩
  · intro t
    rw [hfil]
    simp [List.mem_filter]
  · simp [reportSortedTasks, hfil]
  · simp [pdfTitle, hsel]
  · simp [pdfShowsPeriodLine, hsel]

/-- Concrete report options in selection mode (as `handleGenerateReport`
builds them: period forced to daily, no explicit dates). -/
def cSelOptions : ReportOptions :=
  { period := .daily, startDate := none, endDate := none,
    includeCompleted := none, includeInProgress := none,
    includeNotStarted := none, includeProjects := none, includeJobs := none,
    includePriceDetails := none, selectedTasks := some ["a"] }

/-- C2 counterexample: with a selection list supplied (and the daily default
range in effect, exactly as `handleGenerateReport` invokes the generators in
selection mode), the Excel summary's Period row still carries the computed
date range instead of being suppressed, and the Excel output has no
"Custom Data Report" label — the claimed period-label suppression only
happens in the PDF renderer. -/
theorem excel_selection_period_counterexample :
    cSelOptions.selectedTasks = some ["a"] ∧
    excelPeriodCell 0 cSelOptions = some (0, 86399999) := by decide

/-- Witness for C2's amended theorem at concrete options. -/
theorem selection_mode_rendering_witness :
    pdfTitle cSelOptions = "Custom Data Report" ∧
    pdfShowsPeriodLine 0 cSelOptions = false :=
  ⟨(selection_mode_rendering 0 [] cSelOptions ["a"] rfl).2.2.2.1,
   (selection_mode_rendering 0 [] cSelOptions ["a"] rfl).2.2.2.2⟩

/-- C5 (amended): when a named-period range (weekly, monthly, quarterly or
yearly) is computed from an accepted anchor date and its calendar end falls
after the dialog's `today`, the stored end bound is exactly `endOfDay now`
— the last millisecond of the generation day — rather than the generation
instant itself. -/
theorem named_period_end_clamped (period : DialogPeriod) (now d e : Int)
    (s : DialogState) (he : namedPeriodEnd period d = some e)
    (hd : isAfter d (endOfDay now) = false)
    (hclamp : isAfter e (endOfDay now) = true) :
    (handleDateSelect period (endOfDay now) (some d) s).1.endDate =
      some (endOfDay now) ∧
    (handleDateSelect period (endOfDay now) (some d) s).2 = false := by
  cases period <;> simp only [namedPeriodEnd, Option.some.injEq,
      reduceCtorEq] at he <;>
    simp [handleDateSelect, hd, he, hclamp]

/-- Witness for C5's amended theorem: a weekly range anchored at the epoch
instant 0, whose calendar end (the following Saturday) is clamped. -/
theorem named_period_end_clamped_witness :
    (handleDateSelect .weekly (endOfDay 0) (some 0)
      { selectedDate := none, startDate := none, endDate := none }).1.endDate =
      some (endOfDay 0) :=
  (named_period_end_clamped .weekly 0 0 (endOfWeek 0)
    { selectedDate := none, startDate := none, endDate := none }
    rfl (by decide) (by decide)).1

/-- C5 counterexample: at generation instant `now = 0`, a weekly range
anchored at 0 has calendar end after `today`, yet the stored end bound is
86399999 (`endOfDay 0`), not the generation instant 0 — the clamp target is
the end of the current day, not "now". -/
theorem clamp_not_generation_instant_counterexample :
    isAfter (endOfWeek 0) (endOfDay 0) = true ∧
    (handleDateSelect .weekly (endOfDay 0) (some 0)
      { selectedDate := none, startDate := none, endDate := none }).1.endDate =
      some 86399999 ∧
    endOfDay 0 = 86399999 ∧ (86399999 : Int) ≠ 0 := by decide

/-- C6 (amended): each custom-range handler rejects a bound strictly after
`today` by surfacing the validation toast and leaving the stored range
unchanged; an end bound not after `today` is stored unconditionally — even
when it lies before the stored start — and a start bound not after `today`
that lies after the stored end is stored while the end is silently cleared.
No end-before-start rejection is performed by the handlers. -/
theorem custom_range_bounds (today d : Int) (s : DialogState) :
    (isAfter d today = true →
      handleStartDateSelect today (some d) s = (s, true) ∧
      handleEndDateSelect today (some d) s = (s, true)) ∧
    (isAfter d today = false →
      handleEndDateSelect today (some d) s = ({ s with endDate := some d }, false) ∧
      (∀ e, s.endDate = some e → isAfter d e = true →
        handleStartDateSelect today (some d) s =
          ({ s with startDate := some d, endDate := none }, false))) := by
  constructor
  · intro h
    constructor <;> simp [handleStartDateSelect, handleEndDateSelect, h]
  · intro h
    constructor
    · simp [handleEndDateSelect, h]
    · intro e he hde
      simp [handleStartDateSelect, h, he, hde]

/-- Witness for C6's amended theorem at concrete dates. -/
theorem custom_range_bounds_witness :
    handleEndDateSelect 100 (some 200)
      { selectedDate := none, startDate := none, endDate := none } =
      ({ selectedDate := none, startDate := none, endDate := none }, true) ∧
    handleEndDateSelect 100 (some 50)
      { selectedDate := none, startDate := some 60, endDate := none } =
      ({ selectedDate := none, startDate := some 60, endDate := some 50 }, false) :=
  ⟨((custom_range_bounds 100 200
      { selectedDate := none, startDate := none, endDate := none }).1 (by decide)).2,
   ((custom_range_bounds 100 50
      { selectedDate := none, startDate := some 60, endDate := none }).2 (by decide)).1⟩

/-- C6 counterexample: an end bound (0) earlier than the stored start (50)
is accepted and stored with no validation error, and a start bound (60)
later than the stored end (50) is accepted while the stored end is cleared —
contradicting "reject with a validation error, leaving the stored range
unchanged" for end-before-start ranges. -/
theorem end_before_start_accepted_counterexample :
    handleEndDateSelect 100 (some 0)
      { selectedDate := none, startDate := some 50, endDate := some 70 } =
      ({ selectedDate := none, startDate := some 50, endDate := some 0 }, false) ∧
    (0 : Int) < 50 ∧
    handleStartDateSelect 100 (some 60)
      { selectedDate := none, startDate := some 10, endDate := some 50 } =
      ({ selectedDate := none, startDate := some 60, endDate := none }, false) := by
  decide

/-- Witness for C3's amended theorem at a concrete two-task list. -/
theorem price_sort_effective_price_witness :
    effPrice ((sortTasks .priceHigh [cPriceA, cPriceB]).getD 1 (mkTask "")) ≤
      effPrice ((sortTasks .priceHigh [cPriceA, cPriceB]).getD 0 (mkTask "")) ∧
    effPrice cPriceA = 100 :=
  ⟨price_sort_effective_price.1 [cPriceA, cPriceB] 0 1 (by decide) (by simp [sortTasks]),
   price_sort_effective_price.2.2.2 cPriceA rfl⟩

/-- Folding `sum + f t` over a list equals the initial value plus the sum of
the mapped list. -/
theorem foldl_add_map (f : Task → Rat) (l : List Task) (a : Rat) :
    l.foldl (fun sum t => sum + f t) a = a + (l.map f).sum := by
  induction l generalizing a with
  | nil => simp
  | cons h t ih => simp [List.foldl_cons, ih]; ring

/-- The duration list gathered by the spec-side average coincides with the
day-durations of the tasks kept by the code's filter. -/
theorem durations_eq (tasks : List Task) :
    (tasks.filterMap fun t =>
      match t.dateInitiated, t.dateCompleted with
      | some i, some c => some (((c - i : Int) : Rat) / 86400000)
      | _, _ => none) =
    ((tasks.filter fun t => t.dateCompleted.isSome && t.dateInitiated.isSome).map
      fun t => ((t.dateCompleted.getD 0 - t.dateInitiated.getD 0 : Int) : Rat) / 86400000) := by
  induction tasks with
  | nil => rfl
  | cons h t ih =>
    rcases hi : h.dateInitiated with _ | i <;> rcases hc : h.dateCompleted with _ | c <;>
      simp only [List.filterMap_cons, List.filter_cons, List.map_cons, hi, hc,
        Option.isSome_some, Option.isSome_none, Option.getD_some,
        Bool.and_true, Bool.and_false, Bool.false_and, Bool.true_and,
        cond_true, cond_false, ih] <;>
      simp [hi, hc]

/-- An item initiated at Jan 1 midnight and completed 10 days later. -/
def cCompTen : Task :=
  { mkTask "c1" with dateInitiated := some 0, dateCompleted := some 864000000 }

/-- An item initiated and completed at the same instant. -/
def cCompZero : Task :=
  { mkTask "c2" with dateInitiated := some 0, dateCompleted := some 0 }

/-- C8: the dashboard's average completion time is the mean, over exactly
the items carrying both an initiation and a completion timestamp, of their
durations in days, rounded to the nearest integer day (`Math.round`), and 0
when no item qualifies; on the spec's example — one 10-day item and one
0-day item — it equals round((10+0)/2) = 5. -/
theorem average_completion_time_spec :
    (∀ tasks : List Task,
      calculateAverageCompletionTime tasks = specAverageCompletionDays tasks) ∧
    calculateAverageCompletionTime [] = 0 ∧
    calculateAverageCompletionTime [cCompTen, cCompZero] = 5 := by
  refine ⟨?_, rfl, ?_⟩
  · intro tasks
    simp only [calculateAverageCompletionTime, specAverageCompletionDays,
      durations_eq, List.length_map, foldl_add_map, zero_add]
  · simp [calculateAverageCompletionTime, cCompTen, cCompZero, mkTask]
    norm_num [round_eq]

/-- Per-status counts partition any task list. -/
theorem length_filter_status (l : List Task) :
    (l.filter fun t => t.status == .completed).length +
      (l.filter fun t => t.status == .inProgress).length +
      (l.filter fun t => t.status == .notInitiated).length = l.length := by
  induction l with
  | nil => rfl
  | cons h t ih =>
    cases hst : h.status <;> simp [List.filter_cons, hst] <;> omega

/-- C9: in both the dashboard metrics and the report summaries, the
completed, in-progress and not-initiated counts sum to the total item count,
for every collection; on the empty collection every count is 0. -/
theorem status_counts_partition :
    (∀ tasks : List Task,
      (computeMetrics tasks).completed + (computeMetrics tasks).inProgress +
        (computeMetrics tasks).notStarted = (computeMetrics tasks).total ∧
      (summaryStatusCounts tasks).1 + (summaryStatusCounts tasks).2.1 +
        (summaryStatusCounts tasks).2.2 = tasks.length) ∧
    computeMetrics [] =
      { total := 0, completed := 0, inProgress := 0, notStarted := 0,
        projects := 0, jobs := 0 } ∧
    summaryStatusCounts [] = (0, 0, 0) := by
  refine ⟨fun tasks => ⟨?_, ?_⟩, rfl, rfl⟩
  · simpa [computeMetrics] using length_filter_status tasks
  · simpa [summaryStatusCounts] using length_filter_status tasks

/-- C10: a file-add action whose selection exceeds the remaining slots below
the 50-attachment cap is rejected (with the remaining-slot count in the
error) and nothing is added; otherwise every selected file is appended and
the resulting total of pending plus existing attachments never exceeds
50. -/
theorem file_cap_enforced (files taskImages existingImages : List String)
    (hne : files ≠ []) :
    ((files.length : Int) > 50 - ((taskImages.length : Int) + existingImages.length) →
      handleFileChange files taskImages existingImages =
        .rejected (50 - ((taskImages.length : Int) + existingImages.length))) ∧
    ((files.length : Int) ≤ 50 - ((taskImages.length : Int) + existingImages.length) →
      handleFileChange files taskImages existingImages =
        .updated (taskImages ++ files) ∧
      ((taskImages ++ files).length : Int) + existingImages.length ≤ 50) := by
  match files with
  | [] => exact absurd rfl hne
  | f :: fs =>
    constructor
    · intro hover
      simp only [handleFileChange]
      rw [if_pos (by omega)]
    · intro hfit
      refine ⟨?_, ?_⟩
      · simp only [handleFileChange]
        rw [if_neg (by omega)]
      · simp only [List.length_append]
        push_cast at hfit ⊢
        omega

/-- Witness for C10: adding 2 files to 48 existing and 1 pending attachment
is rejected; adding 1 file to the same state is accepted and stays at the
cap. -/
theorem file_cap_enforced_witness :
    handleFileChange ["f1", "f2"] ["p1"] (List.replicate 48 "e") =
      .rejected 1 ∧
    handleFileChange ["f1"] ["p1"] (List.replicate 48 "e") =
      .updated ["p1", "f1"] := by
  constructor
  · have h := (file_cap_enforced ["f1", "f2"] ["p1"] (List.replicate 48 "e")
      (by decide)).1 (by simp)
    simpa using h
  · have h := (file_cap_enforced ["f1"] ["p1"] (List.replicate 48 "e")
      (by decide)).2 (by simp)
    simpa using h.1

end Workflow
